import Mathlib

/-
Verification of the CELI monitoring agent core
(`celi_framework/core/monitor.py`) against its specification.

The Python code is shallowly embedded: `MonitoringAgent.analyze_prompt_completions`
and `MonitoringAgent.process_queue` become pure Lean functions over an explicit
environment (document store, model oracle, parser, store-update outcome) that
return a result (`Except.error` models an uncaught Python exception propagating
out of the function) together with an explicit record of the side effects
performed: `app_logger` entries with their levels, audit-file appends with the
stream they went to, model calls in order, parse invocations and store-update
calls.
-/

namespace Celi

/-- Log levels of `app_logger` calls appearing in `monitor.py`. -/
inductive Level
  | info
  | error
  | warning
deriving DecidableEq

/-- One `app_logger` entry: a level and the message text. -/
structure LogEntry where
  level : Level
  msg : String
deriving DecidableEq

/-- The two audit-log append targets created in `MonitoringAgent.__init__`:
`function_calls_log.txt` and `prompt_completions_log.txt`. -/
inductive AuditStream
  | functionCalls
  | promptCompletions
deriving DecidableEq

/-- File name of an audit stream (basename of the path built in `__init__`). -/
def streamFile : AuditStream → String
  | AuditStream.functionCalls => "function_calls_log.txt"
  | AuditStream.promptCompletions => "prompt_completions_log.txt"

/-- A work-item document as read from the `process_executions` collection.
Fields read with `doc[...]` in `monitor.py` are plain fields; fields read
with `doc.get(...)` (which supplies a default when the key is absent) are
`Option`s. -/
structure WorkItem where
  prompt_exception : Option Bool
  finish_reason : String
  system_message : String
  ongoing_chat : String
  prompt_completion : String
  function_name : Option String
  function_arguments : Option String
  response_msg : String
  task : Option String
  task_desc : Option String
deriving DecidableEq

/-- Outcome of one `quick_ask` model call: text, a
`ContextLengthExceededException` (the only exception kind the fallback chain
catches), or any other exception. -/
inductive ModelResult
  | ok (text : String)
  | sizeLimit (msg : String)
  | otherError (msg : String)
deriving DecidableEq

/-- The parsed `SecondaryAnalysisReport`: named fields, each possibly `None`.
The class itself lives in `celi_framework.utils.llmcore_utils`, outside the
provided sources; `monitor.py` only iterates `vars(...)` over it, so a list of
named optional fields captures exactly what the code uses. -/
structure SecondaryAnalysisReport where
  fields : List (String × Option String)
deriving DecidableEq

/-- Environment of one `MonitoringAgent` run: collaborator behaviour. -/
structure Env where
  store : String → Option WorkItem
  oracle : String → ModelResult
  parseResult : String → Except String SecondaryAnalysisReport
  updateResult : String → List (String × String) → Except String Unit

/-- The side effects of a run. `storeCalls` records each
`add_or_update_fields_in_document` call with its arguments. -/
structure Effects where
  log : List LogEntry
  audits : List (AuditStream × String)
  modelCalls : List String
  parseCalls : Nat
  storeCalls : List (String × List (String × String))
deriving DecidableEq

def emptyEffects : Effects :=
  { log := [], audits := [], modelCalls := [], parseCalls := 0, storeCalls := [] }

def effAppend (a b : Effects) : Effects :=
  { log := a.log ++ b.log
    audits := a.audits ++ b.audits
    modelCalls := a.modelCalls ++ b.modelCalls
    parseCalls := a.parseCalls + b.parseCalls
    storeCalls := a.storeCalls ++ b.storeCalls }

/-- Number of log entries at a given level. -/
def countLevel (lvl : Level) (log : List LogEntry) : Nat :=
  (log.filter fun entry => entry.level == lvl).length

/-- Python `str()` rendering of an optional string (`None` when absent), as an
f-string would interpolate it. -/
def pyOptStr : Option String → String
  | none => "None"
  | some s => s

/-- Modelled from the spec: `make_prompt_for_function_call_analysis` is
imported from `celi_framework.core.templates`, which is not among the provided
sources.  The spec describes it as the function-call analysis template whose
inputs (system message, chat history, function name, function arguments,
completion text) appear in the constructed prompt. -/
def make_prompt_for_function_call_analysis (system_message ongoing_chat
    function_name function_arguments prompt_completion : String) : String :=
  "System message:\n" ++ system_message ++ "\n\nChat history:\n" ++ ongoing_chat
    ++ "\n\nFunction name:\n" ++ function_name ++ "\n\nFunction arguments:\n"
    ++ function_arguments ++ "\n\nCompletion:\n" ++ prompt_completion

/-- Modelled from the spec: `make_prompt_for_secondary_analysis` is imported
from `celi_framework.core.templates`, which is not among the provided sources.
The spec describes it as the general secondary-analysis template whose inputs
(system message, chat history, completion text, response message) appear in the
constructed prompt. -/
def make_prompt_for_secondary_analysis (system_message ongoing_chat
    prompt_completion response : String) : String :=
  "System message:\n" ++ system_message ++ "\n\nChat history:\n" ++ ongoing_chat
    ++ "\n\nCompletion:\n" ++ prompt_completion ++ "\n\nResponse:\n" ++ response

/-- Template selection, `monitor.py` lines 203-220: `finish_reason ==
"function_call"` picks the function-call template with `doc.get` defaults for
the function name and arguments; anything else picks the secondary-analysis
template with `doc["response_msg"]`. -/
def buildPrompt (doc : WorkItem) : String :=
  if doc.finish_reason = "function_call" then
    make_prompt_for_function_call_analysis doc.system_message doc.ongoing_chat
      (doc.function_name.getD "Unknown function name")
      (doc.function_arguments.getD "Unknown arguments")
      doc.prompt_completion
  else
    make_prompt_for_secondary_analysis doc.system_message doc.ongoing_chat
      doc.prompt_completion doc.response_msg

/-- First model choice, `monitor.py` lines 224-227. -/
def primaryModel (prompt_exception : Bool) : String :=
  if prompt_exception then "gpt-4-32k" else "gpt-4-0125-preview"

/-- The single fallback model, `monitor.py` line 238. -/
def fallbackModel : String := "gpt-4-1106-preview"

deriving instance DecidableEq for Except

/-- Result of the fallback chain: the final value of `response` (or a
propagating exception), the model calls made, and the log entries emitted. -/
structure ChainOut where
  result : Except String (Option String)
  calls : List String
  log : List LogEntry
deriving DecidableEq

/-- The model fallback chain, `monitor.py` lines 222-249.  Only
`ContextLengthExceededException` (`ModelResult.sizeLimit`) is caught; after one
such failure the single fallback model is tried; a second size-limit failure
sets `response = None`.  Any other exception propagates (`Except.error`). -/
def modelChain (oracle : String → ModelResult) (prompt_exception : Bool) :
    ChainOut :=
  let model1 := primaryModel prompt_exception
  match oracle model1 with
  | ModelResult.ok t =>
    { result := Except.ok (some t), calls := [model1], log := [] }
  | ModelResult.otherError m =>
    { result := Except.error m, calls := [model1], log := [] }
  | ModelResult.sizeLimit e =>
    let l1 : LogEntry :=
      ⟨Level.info, "Context length issue with model " ++ model1 ++ ": " ++ e⟩
    let l2 : LogEntry :=
      ⟨Level.info, "Trying " ++ fallbackModel ++ " instead: " ++ e⟩
    match oracle fallbackModel with
    | ModelResult.ok t =>
      { result := Except.ok (some t), calls := [model1, fallbackModel]
        log := [l1, l2] }
    | ModelResult.otherError m =>
      { result := Except.error m, calls := [model1, fallbackModel]
        log := [l1, l2] }
    | ModelResult.sizeLimit e2 =>
      { result := Except.ok none, calls := [model1, fallbackModel]
        log := [l1, l2,
          ⟨Level.error, "Failed again with model " ++ fallbackModel ++ ": " ++ e2⟩] }

/-- Audit-stream choice, `monitor.py` lines 258-262. -/
def auditStreamOf (doc : WorkItem) : AuditStream :=
  if doc.finish_reason = "function_call" then AuditStream.functionCalls
  else AuditStream.promptCompletions

/-- Dict lookup for field lists (unique-key association lists). -/
def lookupField (k : String) : List (String × String) → Option String
  | [] => none
  | kv :: rest => if kv.1 = k then some kv.2 else lookupField k rest

/-- The dict comprehension of `monitor.py` lines 283-285:
`{k: v for k, v in vars(secondary_analysis).items() if v is not None}`. -/
def reportDict (r : SecondaryAnalysisReport) : List (String × String) :=
  r.fields.filterMap fun kv =>
    match kv.2 with
    | some v => some (kv.1, v)
    | none => none

/-- Rendering of a field dict inside an f-string log message. -/
def renderFields (fields : List (String × String)) : String :=
  String.intercalate ", " (fields.map fun kv => kv.1 ++ ": " ++ kv.2)

/-- Modelled from the spec: `add_or_update_fields_in_document` is a method of
the MongoDB utility (`MongoDBUtilitySingleton`), not among the provided
sources.  The spec calls it `mergeFields`, "a partial update, never a
replace": named fields are set to the given values and every other field
keeps its previous value.  A stored record is a map from field names to
optional values. -/
def add_or_update_fields_in_document (record : String → Option String)
    (new_fields : List (String × String)) : String → Option String :=
  fun k =>
    match lookupField k new_fields with
    | some v => some v
    | none => record k

/-- `MonitoringAgent.analyze_prompt_completions`, `monitor.py` lines 166-303,
as a pure function over the environment.  `Except.error m` in the first
component models a Python exception with message `m` propagating out of the
method; the second component records the side effects performed up to the
normal return or up to the raise. -/
def analyze_prompt_completions (env : Env) (document_id : String) :
    Except String Unit × Effects :=
  match env.store document_id with
  | none =>
    (Except.ok (),
      { emptyEffects with
          log := [⟨Level.error,
            "Document with ID " ++ document_id ++ " not found."⟩] })
  | some doc =>
    let prompt_exception := doc.prompt_exception.getD true
    let log0 : List LogEntry :=
      if prompt_exception then
        [⟨Level.info,
          "Handling exception by analyzing the prompt completion:\n"
            ++ doc.prompt_completion⟩]
      else []
    let chain := modelChain env.oracle prompt_exception
    match chain.result with
    | Except.error m =>
      (Except.error m,
        { emptyEffects with
            log := log0 ++ chain.log, modelCalls := chain.calls })
    | Except.ok response =>
      let stream := auditStreamOf doc
      let log_content :=
        "Document ID: " ++ document_id ++ "\nPrompt Completion:"
          ++ doc.prompt_completion ++ "\nEvaluation: " ++ pyOptStr response
          ++ "\n\n"
      let logAB : List LogEntry :=
        [⟨Level.info,
          "Secondary Analysis for " ++ document_id ++ ":\n" ++ pyOptStr response⟩,
         ⟨Level.info, "Logged analysis to " ++ streamFile stream⟩]
      match response with
      | none =>
        (Except.ok (),
          { emptyEffects with
              log := log0 ++ chain.log ++ logAB
                ++ [⟨Level.error, "No response received from secondary analysis."⟩]
              audits := [(stream, log_content)]
              modelCalls := chain.calls })
      | some r =>
        let logC : LogEntry :=
          ⟨Level.info, "Response from secondary analysis for task "
            ++ doc.task.getD "Unknown task" ++ "-" ++ doc.task_desc.getD ""⟩
        match env.parseResult r with
        | Except.error m =>
          (Except.error m,
            { emptyEffects with
                log := log0 ++ chain.log ++ logAB ++ [logC]
                audits := [(stream, log_content)]
                modelCalls := chain.calls
                parseCalls := 1 })
        | Except.ok secondary_analysis =>
          let report := reportDict secondary_analysis
          let logD : LogEntry :=
            ⟨Level.info, "Parsed Evaluation Report:\n" ++ renderFields report⟩
          match env.updateResult document_id report with
          | Except.ok _ =>
            (Except.ok (),
              { emptyEffects with
                  log := log0 ++ chain.log ++ logAB ++ [logC, logD,
                    ⟨Level.info, "Updated document with analysis report for doc "
                      ++ document_id ++ "."⟩]
                  audits := [(stream, log_content)]
                  modelCalls := chain.calls
                  parseCalls := 1
                  storeCalls := [(document_id, report)] })
          | Except.error e =>
            (Except.ok (),
              { emptyEffects with
                  log := log0 ++ chain.log ++ logAB ++ [logC, logD,
                    ⟨Level.error, "Failed to update document " ++ document_id
                      ++ " with analysis report: " ++ e⟩]
                  audits := [(stream, log_content)]
                  modelCalls := chain.calls
                  parseCalls := 1
                  storeCalls := [(document_id, report)] })

/-- One iteration body of `MonitoringAgent.process_queue`, `monitor.py`
lines 149-162, applied to the dequeued `(update_type, prompt_data)` pair.
There is no `else` branch in the source: an unrecognized `update_type` falls
through with no action and no log entry. -/
def processEvent (env : Env) (update_type prompt_data : String) :
    Except String Unit × Effects :=
  if update_type = "doc_save" then
    let deq : Effects :=
      { emptyEffects with
          log := [⟨Level.info,
            "Dequeued document ID " ++ prompt_data ++ " to monitor"⟩] }
    let r := analyze_prompt_completions env prompt_data
    (r.1, effAppend deq r.2)
  else if update_type = "pop_context_triggered" then
    (Except.ok (), emptyEffects)
  else
    (Except.ok (), emptyEffects)

/-- `MonitoringAgent.process_queue`, `monitor.py` lines 143-164, run over a
finite sequence of dequeued events.  The `try` in the source catches only
`queue.Empty`; an exception raised while handling an event propagates out of
`process_queue` and ends the loop, leaving later events unprocessed. -/
def processQueue (env : Env) : List (String × String) →
    Except String Unit × Effects
  | [] => (Except.ok (), emptyEffects)
  | e :: rest =>
    let r := processEvent env e.1 e.2
    match r.1 with
    | Except.error m => (Except.error m, r.2)
    | Except.ok _ =>
      let rr := processQueue env rest
      (rr.1, effAppend r.2 rr.2)

/-- `sub` occurs verbatim inside `s`. -/
def promptMentions (s sub : String) : Prop :=
  ∃ pre post, s = pre ++ sub ++ post

/- Helper lemmas shared by the claim proofs. -/

theorem effAppend_emptyEffects (x : Effects) : effAppend emptyEffects x = x := by
  cases x
  simp [effAppend, emptyEffects]

theorem modelChain_ok_of_no_otherError (oracle : String → ModelResult) (pe : Bool)
    (hor : ∀ m e, oracle m ≠ ModelResult.otherError e) :
    ∃ resp, (modelChain oracle pe).result = Except.ok resp := by
  rcases hp : oracle (primaryModel pe) with t | e | m
  · exact ⟨some t, by simp [modelChain, hp]⟩
  · rcases hf : oracle fallbackModel with t2 | e2 | m2
    · exact ⟨some t2, by simp [modelChain, hp, hf]⟩
    · exact ⟨none, by simp [modelChain, hp, hf]⟩
    · exact absurd hf (hor _ _)
  · exact absurd hp (hor _ _)

theorem analyze_result_ok (env : Env) (document_id : String)
    (hor : ∀ m e, env.oracle m ≠ ModelResult.otherError e)
    (hpr : ∀ s e, env.parseResult s ≠ Except.error e) :
    (analyze_prompt_completions env document_id).1 = Except.ok () := by
  rcases hs : env.store document_id with _ | doc
  · simp [analyze_prompt_completions, hs]
  · obtain ⟨resp, hres⟩ :=
      modelChain_ok_of_no_otherError env.oracle (doc.prompt_exception.getD true) hor
    rcases resp with _ | r
    · simp [analyze_prompt_completions, hs, hres]
    · rcases hpp : env.parseResult r with e | rep
      · exact absurd hpp (hpr _ _)
      · rcases hu : env.updateResult document_id (reportDict rep) with e | u
        · simp [analyze_prompt_completions, hs, hres, hpp, hu]
        · simp [analyze_prompt_completions, hs, hres, hpp, hu]

theorem lookupField_eq_none_of_not_mem_keys {k : String}
    {l : List (String × String)} (h : k ∉ l.map Prod.fst) :
    lookupField k l = none := by
  induction l with
  | nil => rfl
  | cons kv rest ih =>
    simp only [List.map_cons, List.mem_cons, not_or] at h
    have hne : ¬kv.1 = k := fun hh => h.1 hh.symm
    simp [lookupField, hne, ih h.2]

theorem mem_reportDict {r : SecondaryAnalysisReport} {k v : String}
    (h : (k, v) ∈ reportDict r) : (k, some v) ∈ r.fields := by
  simp only [reportDict, List.mem_filterMap] at h
  obtain ⟨⟨k2, ov⟩, hmem, heq⟩ := h
  rcases ov with _ | w
  · simp at heq
  · simp only [Option.some.injEq, Prod.mk.injEq] at heq
    obtain ⟨hk, hv⟩ := heq
    rw [← hk, ← hv]
    exact hmem

theorem nodup_keys_value_eq {l : List (String × Option String)}
    (hnd : (l.map Prod.fst).Nodup) {k : String} {a b : Option String}
    (ha : (k, a) ∈ l) (hb : (k, b) ∈ l) : a = b := by
  induction l with
  | nil => cases ha
  | cons kv rest ih =>
    simp only [List.map_cons, List.nodup_cons] at hnd
    rcases List.mem_cons.mp ha with ha1 | ha2 <;>
      rcases List.mem_cons.mp hb with hb1 | hb2
    · rw [← ha1] at hb1
      exact congrArg Prod.snd hb1.symm
    · exfalso
      apply hnd.1
      rw [← ha1]
      exact List.mem_map.mpr ⟨(k, b), hb2, rfl⟩
    · exfalso
      apply hnd.1
      rw [← hb1]
      exact List.mem_map.mpr ⟨(k, a), ha2, rfl⟩
    · exact ih hnd.2 ha2 hb2

/- Concrete fixtures used by witnesses and counterexamples. -/

/-- A function-call work-item. -/
def docFC : WorkItem :=
  { prompt_exception := some false, finish_reason := "function_call"
    system_message := "sys", ongoing_chat := "chat", prompt_completion := "comp"
    function_name := some "search", function_arguments := some "query=llm"
    response_msg := "", task := some "t1", task_desc := some "d1" }

/-- A normal-completion work-item. -/
def docN : WorkItem :=
  { prompt_exception := some false, finish_reason := "stop"
    system_message := "sys", ongoing_chat := "chat", prompt_completion := "comp"
    function_name := none, function_arguments := none
    response_msg := "the response", task := none, task_desc := none }

/-- A function-call work-item whose `function_name` field alone is absent. -/
def docNoName : WorkItem :=
  { docFC with function_name := none }

/-- A function-call work-item whose `function_arguments` field alone is
absent. -/
def docNoArgs : WorkItem :=
  { docFC with function_arguments := none }

/-- Store holding `docN` under `"doc-7"` and `docFC` under `"doc-8"`. -/
def storeW : String → Option WorkItem :=
  fun id =>
    if id = "doc-7" then some docN
    else if id = "doc-8" then some docFC
    else none

/-- Environment whose model calls always hit the size limit. -/
def envSize : Env :=
  { store := storeW
    oracle := fun _ => ModelResult.sizeLimit "too long"
    parseResult := fun _ => Except.ok ⟨[("quality", some "good"), ("notes", none)]⟩
    updateResult := fun _ _ => Except.ok () }

/-- Environment whose model calls succeed. -/
def envOk : Env :=
  { envSize with oracle := fun _ => ModelResult.ok "verdict" }

/-- Environment whose model calls raise a non-size-limit error. -/
def envBoom : Env :=
  { envSize with oracle := fun _ => ModelResult.otherError "boom" }

/-- Environment whose model calls succeed but whose parser raises. -/
def envParseBoom : Env :=
  { envOk with parseResult := fun _ => Except.error "parse boom" }

/- Claim theorems. -/

/-- C1: the model fallback chain is followed in fixed order: with
`promptException` true the first call goes to `gpt-4-32k` (primary model A),
with it false to `gpt-4-0125-preview` (primary model B); on a size-limit
failure from that first attempt exactly one retry is made with the fallback
model `gpt-4-1106-preview` (model C); a second size-limit failure ends the
chain with a null raw response (`ModelUnavailable`) and no further model
attempts are made in that cycle. -/
theorem fallback_chain_fixed_order (oracle : String → ModelResult) (pe : Bool) :
    primaryModel true = "gpt-4-32k" ∧
    primaryModel false = "gpt-4-0125-preview" ∧
    fallbackModel = "gpt-4-1106-preview" ∧
    (∀ t, oracle (primaryModel pe) = ModelResult.ok t →
      (modelChain oracle pe).result = Except.ok (some t) ∧
      (modelChain oracle pe).calls = [primaryModel pe]) ∧
    (∀ e1 t, oracle (primaryModel pe) = ModelResult.sizeLimit e1 →
      oracle fallbackModel = ModelResult.ok t →
      (modelChain oracle pe).result = Except.ok (some t) ∧
      (modelChain oracle pe).calls = [primaryModel pe, fallbackModel]) ∧
    (∀ e1 e2, oracle (primaryModel pe) = ModelResult.sizeLimit e1 →
      oracle fallbackModel = ModelResult.sizeLimit e2 →
      (modelChain oracle pe).result = Except.ok none ∧
      (modelChain oracle pe).calls = [primaryModel pe, fallbackModel]) := by
  refine ⟨rfl, rfl, rfl, ?_, ?_, ?_⟩
  · intro t h1
    simp [modelChain, h1]
  · intro e1 t h1 h2
    simp [modelChain, h1, h2]
  · intro e1 e2 h1 h2
    simp [modelChain, h1, h2]

theorem fallback_chain_fixed_order_witness :
    (modelChain envSize.oracle true).result = Except.ok none ∧
    (modelChain envSize.oracle true).calls = [primaryModel true, fallbackModel] :=
  (fallback_chain_fixed_order envSize.oracle true).2.2.2.2.2 "too long" "too long"
    (by decide) (by decide)

/-- C4: a `doc_save` event whose documentId is absent from the store ends with
just the error log line (outcome `DocumentMissing`): zero audit appends, zero
store writes and zero model calls. -/
theorem doc_save_missing_no_effects (env : Env) (document_id : String)
    (h : env.store document_id = none) :
    processEvent env "doc_save" document_id =
      (Except.ok (),
        { emptyEffects with
            log := [⟨Level.info,
                "Dequeued document ID " ++ document_id ++ " to monitor"⟩,
              ⟨Level.error,
                "Document with ID " ++ document_id ++ " not found."⟩] }) := by
  simp [processEvent, analyze_prompt_completions, h, effAppend, emptyEffects]

theorem doc_save_missing_no_effects_witness :
    processEvent envOk "doc_save" "doc-99" =
      (Except.ok (),
        { emptyEffects with
            log := [⟨Level.info, "Dequeued document ID doc-99 to monitor"⟩,
              ⟨Level.error, "Document with ID doc-99 not found."⟩] }) :=
  doc_save_missing_no_effects envOk "doc-99" (by decide)

/-- C7: template selection is decided solely by `finish_reason`: for
`finish_reason = "function_call"` the prompt is the function-call analysis
template and mentions the function name and function arguments; for any other
`finish_reason` the prompt is the general secondary-analysis template and
mentions the response message instead. -/
theorem template_selected_by_finish_reason (doc : WorkItem) :
    (doc.finish_reason = "function_call" →
      buildPrompt doc = make_prompt_for_function_call_analysis doc.system_message
        doc.ongoing_chat (doc.function_name.getD "Unknown function name")
        (doc.function_arguments.getD "Unknown arguments") doc.prompt_completion ∧
      promptMentions (buildPrompt doc)
        (doc.function_name.getD "Unknown function name") ∧
      promptMentions (buildPrompt doc)
        (doc.function_arguments.getD "Unknown arguments")) ∧
    (doc.finish_reason ≠ "function_call" →
      buildPrompt doc = make_prompt_for_secondary_analysis doc.system_message
        doc.ongoing_chat doc.prompt_completion doc.response_msg ∧
      promptMentions (buildPrompt doc) doc.response_msg) := by
  constructor
  · intro h
    have hb : buildPrompt doc = make_prompt_for_function_call_analysis
        doc.system_message doc.ongoing_chat
        (doc.function_name.getD "Unknown function name")
        (doc.function_arguments.getD "Unknown arguments")
        doc.prompt_completion := by
      simp [buildPrompt, h]
    refine ⟨hb, ?_, ?_⟩
    · rw [hb]
      exact ⟨"System message:\n" ++ doc.system_message ++ "\n\nChat history:\n"
          ++ doc.ongoing_chat ++ "\n\nFunction name:\n",
        "\n\nFunction arguments:\n"
          ++ doc.function_arguments.getD "Unknown arguments"
          ++ "\n\nCompletion:\n" ++ doc.prompt_completion,
        by simp [make_prompt_for_function_call_analysis, String.append_assoc]⟩
    · rw [hb]
      exact ⟨"System message:\n" ++ doc.system_message ++ "\n\nChat history:\n"
          ++ doc.ongoing_chat ++ "\n\nFunction name:\n"
          ++ doc.function_name.getD "Unknown function name"
          ++ "\n\nFunction arguments:\n",
        "\n\nCompletion:\n" ++ doc.prompt_completion,
        by simp [make_prompt_for_function_call_analysis, String.append_assoc]⟩
  · intro h
    have hb : buildPrompt doc = make_prompt_for_secondary_analysis
        doc.system_message doc.ongoing_chat doc.prompt_completion
        doc.response_msg := by
      simp [buildPrompt, h]
    refine ⟨hb, ?_⟩
    rw [hb]
    exact ⟨"System message:\n" ++ doc.system_message ++ "\n\nChat history:\n"
        ++ doc.ongoing_chat ++ "\n\nCompletion:\n" ++ doc.prompt_completion
        ++ "\n\nResponse:\n",
      "",
      by simp [make_prompt_for_secondary_analysis, String.append_assoc]⟩

theorem template_selected_by_finish_reason_witness :
    promptMentions (buildPrompt docFC) "search" ∧
    promptMentions (buildPrompt docN) "the response" :=
  ⟨((template_selected_by_finish_reason docFC).1 (by decide)).2.1,
   ((template_selected_by_finish_reason docN).2 (by decide)).2⟩

/-- C10: a `finish_reason = "function_call"` work-item whose `function_name`
or `function_arguments` field is absent still builds its prompt (via `doc.get`
defaults, so neither absence can fail the evaluation), and whichever of the
two fields is missing is replaced in the prompt by its placeholder string,
"Unknown function name" resp. "Unknown arguments" — each absence acting
independently of the other field's presence. -/
theorem missing_function_fields_use_placeholders (doc : WorkItem)
    (hf : doc.finish_reason = "function_call") :
    buildPrompt doc = make_prompt_for_function_call_analysis doc.system_message
      doc.ongoing_chat (doc.function_name.getD "Unknown function name")
      (doc.function_arguments.getD "Unknown arguments")
      doc.prompt_completion ∧
    (doc.function_name = none →
      promptMentions (buildPrompt doc) "Unknown function name") ∧
    (doc.function_arguments = none →
      promptMentions (buildPrompt doc) "Unknown arguments") := by
  have hb : buildPrompt doc = make_prompt_for_function_call_analysis
      doc.system_message doc.ongoing_chat
      (doc.function_name.getD "Unknown function name")
      (doc.function_arguments.getD "Unknown arguments")
      doc.prompt_completion := by
    simp [buildPrompt, hf]
  refine ⟨hb, ?_, ?_⟩
  · intro hn
    have hn2 : doc.function_name.getD "Unknown function name"
        = "Unknown function name" := by
      rw [hn]
      rfl
    rw [hb, hn2]
    exact ⟨"System message:\n" ++ doc.system_message ++ "\n\nChat history:\n"
        ++ doc.ongoing_chat ++ "\n\nFunction name:\n",
      "\n\nFunction arguments:\n"
        ++ doc.function_arguments.getD "Unknown arguments"
        ++ "\n\nCompletion:\n" ++ doc.prompt_completion,
      by simp only [make_prompt_for_function_call_analysis, String.append_assoc]⟩
  · intro ha
    have ha2 : doc.function_arguments.getD "Unknown arguments"
        = "Unknown arguments" := by
      rw [ha]
      rfl
    rw [hb, ha2]
    exact ⟨"System message:\n" ++ doc.system_message ++ "\n\nChat history:\n"
        ++ doc.ongoing_chat ++ "\n\nFunction name:\n"
        ++ doc.function_name.getD "Unknown function name"
        ++ "\n\nFunction arguments:\n",
      "\n\nCompletion:\n" ++ doc.prompt_completion,
      by simp only [make_prompt_for_function_call_analysis, String.append_assoc]⟩

theorem missing_function_fields_use_placeholders_witness :
    promptMentions (buildPrompt docNoName) "Unknown function name" ∧
    promptMentions (buildPrompt docNoArgs) "Unknown arguments" :=
  ⟨(missing_function_fields_use_placeholders docNoName (by decide)).2.1
      (by decide),
   (missing_function_fields_use_placeholders docNoArgs (by decide)).2.2
      (by decide)⟩

/-- C2 counterexample: with `"doc-7"` present in the store and both model
attempts failing with a size limit, the audit-file write of `monitor.py`
lines 251-268 is unconditional, so one AuditLog append occurs (not zero) and
two error-level log entries are produced (not one): `Failed again with model
...` and `No response received from secondary analysis.`. -/
theorem audit_append_on_double_size_limit_cex :
    (analyze_prompt_completions envSize "doc-7").2.audits.length = 1 ∧
    countLevel Level.error (analyze_prompt_completions envSize "doc-7").2.log
      = 2 := by
  decide

/-- C2 (amended): for every evaluation in which both model attempts fail with
a size-limit error, the outcome is `ModelUnavailable` (raw response null, no
exception), exactly one AuditLog append occurs — the write is unconditional
and records `Evaluation: None` — two error-level log entries are produced,
and no parse or store write happens. -/
theorem double_size_limit_one_append_two_errors (env : Env)
    (document_id : String) (doc : WorkItem) (e1 e2 : String)
    (hs : env.store document_id = some doc)
    (h1 : env.oracle (primaryModel (doc.prompt_exception.getD true))
      = ModelResult.sizeLimit e1)
    (h2 : env.oracle fallbackModel = ModelResult.sizeLimit e2) :
    (analyze_prompt_completions env document_id).1 = Except.ok () ∧
    (analyze_prompt_completions env document_id).2.audits =
      [(auditStreamOf doc,
        "Document ID: " ++ document_id ++ "\nPrompt Completion:"
          ++ doc.prompt_completion ++ "\nEvaluation: " ++ pyOptStr none
          ++ "\n\n")] ∧
    countLevel Level.error (analyze_prompt_completions env document_id).2.log
      = 2 ∧
    (analyze_prompt_completions env document_id).2.parseCalls = 0 ∧
    (analyze_prompt_completions env document_id).2.storeCalls = [] := by
  have hm : modelChain env.oracle (doc.prompt_exception.getD true) =
      { result := Except.ok none
        calls := [primaryModel (doc.prompt_exception.getD true), fallbackModel]
        log := [⟨Level.info, "Context length issue with model "
            ++ primaryModel (doc.prompt_exception.getD true) ++ ": " ++ e1⟩,
          ⟨Level.info, "Trying " ++ fallbackModel ++ " instead: " ++ e1⟩,
          ⟨Level.error, "Failed again with model " ++ fallbackModel ++ ": "
            ++ e2⟩] } := by
    simp [modelChain, h1, h2]
  cases hpe : doc.prompt_exception.getD true <;>
    rw [hpe] at hm <;>
    simp [analyze_prompt_completions, hs, hm, hpe, emptyEffects, countLevel,
      List.filter,
      show (Level.info == Level.error) = false from rfl,
      show (Level.error == Level.error) = true from rfl]

theorem double_size_limit_one_append_two_errors_witness :
    (analyze_prompt_completions envSize "doc-8").1 = Except.ok () ∧
    (analyze_prompt_completions envSize "doc-8").2.audits =
      [(auditStreamOf docFC,
        "Document ID: " ++ "doc-8" ++ "\nPrompt Completion:"
          ++ docFC.prompt_completion ++ "\nEvaluation: " ++ pyOptStr none
          ++ "\n\n")] ∧
    countLevel Level.error (analyze_prompt_completions envSize "doc-8").2.log
      = 2 ∧
    (analyze_prompt_completions envSize "doc-8").2.parseCalls = 0 ∧
    (analyze_prompt_completions envSize "doc-8").2.storeCalls = [] :=
  double_size_limit_one_append_two_errors envSize "doc-8" docFC
    "too long" "too long" (by decide) (by decide) (by decide)

/-- C9: whenever the model fallback chain ends with a null response (both
attempts hit the size limit), the evaluation performs no parse and no
document-store write, and after the audit-log step (whose last entry is the
`Logged analysis to ...` confirmation) exactly one further log line is
emitted, the error `No response received from secondary analysis.`. -/
theorem no_response_no_parse_no_write (env : Env) (document_id : String)
    (doc : WorkItem) (e1 e2 : String)
    (hs : env.store document_id = some doc)
    (h1 : env.oracle (primaryModel (doc.prompt_exception.getD true))
      = ModelResult.sizeLimit e1)
    (h2 : env.oracle fallbackModel = ModelResult.sizeLimit e2) :
    (analyze_prompt_completions env document_id).2.parseCalls = 0 ∧
    (analyze_prompt_completions env document_id).2.storeCalls = [] ∧
    ∃ pre, (analyze_prompt_completions env document_id).2.log =
      pre ++ [⟨Level.info, "Logged analysis to "
          ++ streamFile (auditStreamOf doc)⟩,
        ⟨Level.error, "No response received from secondary analysis."⟩] := by
  have hm : modelChain env.oracle (doc.prompt_exception.getD true) =
      { result := Except.ok none
        calls := [primaryModel (doc.prompt_exception.getD true), fallbackModel]
        log := [⟨Level.info, "Context length issue with model "
            ++ primaryModel (doc.prompt_exception.getD true) ++ ": " ++ e1⟩,
          ⟨Level.info, "Trying " ++ fallbackModel ++ " instead: " ++ e1⟩,
          ⟨Level.error, "Failed again with model " ++ fallbackModel ++ ": "
            ++ e2⟩] } := by
    simp [modelChain, h1, h2]
  cases hpe : doc.prompt_exception.getD true
  case false =>
    rw [hpe] at hm
    refine ⟨?_, ?_,
      ⟨[⟨Level.info, "Context length issue with model " ++ primaryModel false
          ++ ": " ++ e1⟩,
        ⟨Level.info, "Trying " ++ fallbackModel ++ " instead: " ++ e1⟩,
        ⟨Level.error, "Failed again with model " ++ fallbackModel ++ ": "
          ++ e2⟩,
        ⟨Level.info, "Secondary Analysis for " ++ document_id ++ ":\n"
          ++ pyOptStr none⟩], ?_⟩⟩ <;>
      simp [analyze_prompt_completions, hs, hm, hpe, emptyEffects]
  case true =>
    rw [hpe] at hm
    refine ⟨?_, ?_,
      ⟨[⟨Level.info, "Handling exception by analyzing the prompt completion:\n"
          ++ doc.prompt_completion⟩,
        ⟨Level.info, "Context length issue with model " ++ primaryModel true
          ++ ": " ++ e1⟩,
        ⟨Level.info, "Trying " ++ fallbackModel ++ " instead: " ++ e1⟩,
        ⟨Level.error, "Failed again with model " ++ fallbackModel ++ ": "
          ++ e2⟩,
        ⟨Level.info, "Secondary Analysis for " ++ document_id ++ ":\n"
          ++ pyOptStr none⟩], ?_⟩⟩ <;>
      simp [analyze_prompt_completions, hs, hm, hpe, emptyEffects]

theorem no_response_no_parse_no_write_witness :
    (analyze_prompt_completions envSize "doc-7").2.parseCalls = 0 ∧
    (analyze_prompt_completions envSize "doc-7").2.storeCalls = [] ∧
    ∃ pre, (analyze_prompt_completions envSize "doc-7").2.log =
      pre ++ [⟨Level.info, "Logged analysis to "
          ++ streamFile (auditStreamOf docN)⟩,
        ⟨Level.error, "No response received from secondary analysis."⟩] :=
  no_response_no_parse_no_write envSize "doc-7" docN "too long" "too long"
    (by decide) (by decide) (by decide)

/-- C6: the store update merges only the report's non-absent fields: a field
whose value is `None` is omitted (so the stored value survives), a stored
field not named in the merged report keeps its previous value, and merging the
same report twice gives the same store state as merging it once. -/
theorem merge_report_nonabsent_fields (record : String → Option String)
    (r : SecondaryAnalysisReport) (k : String)
    (hnd : (r.fields.map Prod.fst).Nodup) :
    ((k, none) ∈ r.fields →
      add_or_update_fields_in_document record (reportDict r) k = record k) ∧
    (k ∉ (reportDict r).map Prod.fst →
      add_or_update_fields_in_document record (reportDict r) k = record k) ∧
    add_or_update_fields_in_document
        (add_or_update_fields_in_document record (reportDict r)) (reportDict r)
      = add_or_update_fields_in_document record (reportDict r) := by
  refine ⟨?_, ?_, ?_⟩
  · intro hmem
    have hk : k ∉ (reportDict r).map Prod.fst := by
      intro hin
      obtain ⟨p, hp, hfst⟩ := List.mem_map.mp hin
      obtain ⟨k2, v⟩ := p
      cases hfst
      exact Option.noConfusion
        (nodup_keys_value_eq hnd hmem (mem_reportDict hp))
    simp [add_or_update_fields_in_document,
      lookupField_eq_none_of_not_mem_keys hk]
  · intro hk
    simp [add_or_update_fields_in_document,
      lookupField_eq_none_of_not_mem_keys hk]
  · funext k2
    simp only [add_or_update_fields_in_document]
    cases h : lookupField k2 (reportDict r) <;> simp [h]

/-- A concrete stored record used by the C6 witness. -/
def recordW : String → Option String :=
  fun k => if k = "kept" then some "old" else none

/-- A concrete report with one present and one absent field. -/
def reportW : SecondaryAnalysisReport :=
  ⟨[("quality", some "good"), ("notes", none)]⟩

theorem merge_report_nonabsent_fields_witness :
    add_or_update_fields_in_document recordW (reportDict reportW) "notes"
      = recordW "notes" ∧
    add_or_update_fields_in_document recordW (reportDict reportW) "kept"
      = recordW "kept" ∧
    add_or_update_fields_in_document
        (add_or_update_fields_in_document recordW (reportDict reportW))
        (reportDict reportW)
      = add_or_update_fields_in_document recordW (reportDict reportW) :=
  ⟨(merge_report_nonabsent_fields recordW reportW "notes" (by decide)).1
      (by decide),
   (merge_report_nonabsent_fields recordW reportW "kept" (by decide)).2.1
      (by decide),
   (merge_report_nonabsent_fields recordW reportW "kept" (by decide)).2.2⟩

/-- C3 counterexample: failures do propagate out of an evaluation and
terminate the monitoring loop.  With `"doc-7"` in the store: a non-size-limit
model failure (`"boom"`) is uncaught — `process_queue` catches only
`queue.Empty` — so the loop ends with that exception, and only the first of
two queued events was processed (one model call in total); likewise a parse
failure (`"parse boom"`) propagates. -/
theorem evaluation_failure_propagation_cex :
    (processQueue envBoom
      [("doc_save", "doc-7"), ("doc_save", "doc-7")]).1
        = Except.error "boom" ∧
    (processQueue envBoom
      [("doc_save", "doc-7"), ("doc_save", "doc-7")]).2.modelCalls
        = ["gpt-4-0125-preview"] ∧
    (processQueue envParseBoom
      [("doc_save", "doc-7"), ("doc_save", "doc-7")]).1
        = Except.error "parse boom" := by
  decide

/-- C3 (amended): size-limit model failures and store-update failures are
handled locally (logged, outcome `ModelUnavailable` resp. `PersistFailed`)
and the loop continues; but a non-size-limit model-call failure or a parse
failure is not caught and propagates, terminating the loop.  Provided model
calls never raise a non-size-limit error and parsing never fails, the loop
survives every sequence of events. -/
theorem loop_survives_locally_handled_failures (env : Env)
    (events : List (String × String))
    (hor : ∀ m e, env.oracle m ≠ ModelResult.otherError e)
    (hpr : ∀ s e, env.parseResult s ≠ Except.error e) :
    (processQueue env events).1 = Except.ok () := by
  induction events with
  | nil => rfl
  | cons e rest ih =>
    have he : (processEvent env e.1 e.2).1 = Except.ok () := by
      by_cases h1 : e.1 = "doc_save"
      · simp only [processEvent, h1, if_pos]
        exact analyze_result_ok env e.2 hor hpr
      · by_cases h2 : e.1 = "pop_context_triggered" <;>
          simp [processEvent, h1, h2]
    simp [processQueue, he, ih]

theorem loop_survives_locally_handled_failures_witness :
    (processQueue envSize
      [("doc_save", "doc-7"), ("bogus", "x"), ("doc_save", "doc-99")]).1
      = Except.ok () :=
  loop_survives_locally_handled_failures envSize
    [("doc_save", "doc-7"), ("bogus", "x"), ("doc_save", "doc-99")]
    (fun _ _ h => ModelResult.noConfusion h)
    (fun _ _ h => Except.noConfusion h)

/-- C5 counterexample: a `doc_save` event whose documentId exists can end
with zero AuditLog appends: a non-size-limit model failure propagates before
the (unconditional) audit write is reached. -/
theorem existing_doc_append_cex :
    (processEvent envBoom "doc_save" "doc-7").2.audits = [] ∧
    (processEvent envBoom "doc_save" "doc-7").1 = Except.error "boom" := by
  decide

/-- C5 (amended): for every `doc_save` event whose documentId exists in the
store, provided no model attempt raises a non-size-limit error, exactly one
AuditLog append occurs, on the stream matching the work-item's
`finish_reason` (`functionCalls` when it is `"function_call"`, the general
`promptCompletions` stream otherwise), together with at most one
document-store update. -/
theorem doc_save_one_audit_append (env : Env) (document_id : String)
    (doc : WorkItem)
    (hs : env.store document_id = some doc)
    (hor : ∀ m e, env.oracle m ≠ ModelResult.otherError e) :
    (∃ content, (processEvent env "doc_save" document_id).2.audits
      = [(auditStreamOf doc, content)]) ∧
    (processEvent env "doc_save" document_id).2.storeCalls.length ≤ 1 := by
  obtain ⟨resp, hres⟩ := modelChain_ok_of_no_otherError env.oracle
    (doc.prompt_exception.getD true) hor
  rcases resp with _ | r
  · constructor
    · exact ⟨"Document ID: " ++ document_id ++ "\nPrompt Completion:"
          ++ doc.prompt_completion ++ "\nEvaluation: " ++ pyOptStr none
          ++ "\n\n",
        by simp [processEvent, analyze_prompt_completions, hs, hres,
          effAppend, emptyEffects]⟩
    · simp [processEvent, analyze_prompt_completions, hs, hres,
        effAppend, emptyEffects]
  · rcases hpp : env.parseResult r with e | rep
    · constructor
      · exact ⟨"Document ID: " ++ document_id ++ "\nPrompt Completion:"
            ++ doc.prompt_completion ++ "\nEvaluation: " ++ pyOptStr (some r)
            ++ "\n\n",
          by simp [processEvent, analyze_prompt_completions, hs, hres, hpp,
            effAppend, emptyEffects]⟩
      · simp [processEvent, analyze_prompt_completions, hs, hres, hpp,
          effAppend, emptyEffects]
    · rcases hu : env.updateResult document_id (reportDict rep) with e | u
      · constructor
        · exact ⟨"Document ID: " ++ document_id ++ "\nPrompt Completion:"
              ++ doc.prompt_completion ++ "\nEvaluation: " ++ pyOptStr (some r)
              ++ "\n\n",
            by simp [processEvent, analyze_prompt_completions, hs, hres, hpp,
              hu, effAppend, emptyEffects]⟩
        · simp [processEvent, analyze_prompt_completions, hs, hres, hpp, hu,
            effAppend, emptyEffects]
      · constructor
        · exact ⟨"Document ID: " ++ document_id ++ "\nPrompt Completion:"
              ++ doc.prompt_completion ++ "\nEvaluation: " ++ pyOptStr (some r)
              ++ "\n\n",
            by simp [processEvent, analyze_prompt_completions, hs, hres, hpp,
              hu, effAppend, emptyEffects]⟩
        · simp [processEvent, analyze_prompt_completions, hs, hres, hpp, hu,
            effAppend, emptyEffects]

theorem doc_save_one_audit_append_witness :
    (∃ content, (processEvent envOk "doc_save" "doc-7").2.audits
      = [(auditStreamOf docN, content)]) ∧
    (processEvent envOk "doc_save" "doc-7").2.storeCalls.length ≤ 1 :=
  doc_save_one_audit_append envOk "doc-7" docN (by decide)
    (fun _ _ h => ModelResult.noConfusion h)

/-- C8 counterexample: an event of unknown kind produces no log entry at all —
in particular no warning, since `process_queue` has no `else` branch — while
the loop does continue (the following `doc_save` is still processed). -/
theorem unknown_kind_silent_cex :
    countLevel Level.warning
      (processQueue envOk [("bogus_kind", "p"), ("doc_save", "doc-7")]).2.log
      = 0 ∧
    (processQueue envOk
      [("bogus_kind", "p"), ("doc_save", "doc-7")]).2.audits.length = 1 := by
  decide

/-- C8 (amended): for every dequeued event whose kind is neither `doc_save`
nor `pop_context_triggered`, the event is ignored silently — no action and no
log entry of any level — and the loop continues processing subsequent events
exactly as if the event had not been dequeued; an unknown kind is never fatal
to the loop. -/
theorem unknown_kind_ignored_silently (env : Env) (kind payload : String)
    (rest : List (String × String))
    (h1 : kind ≠ "doc_save") (h2 : kind ≠ "pop_context_triggered") :
    processEvent env kind payload = (Except.ok (), emptyEffects) ∧
    processQueue env ((kind, payload) :: rest) = processQueue env rest := by
  have hpe : processEvent env kind payload = (Except.ok (), emptyEffects) := by
    simp [processEvent, h1, h2]
  refine ⟨hpe, ?_⟩
  simp [processQueue, hpe, effAppend_emptyEffects, Prod.mk.eta]

theorem unknown_kind_ignored_silently_witness :
    processEvent envOk "bogus_kind" "p" = (Except.ok (), emptyEffects) ∧
    processQueue envOk [("bogus_kind", "p"), ("doc_save", "doc-7")]
      = processQueue envOk [("doc_save", "doc-7")] :=
  unknown_kind_ignored_silently envOk "bogus_kind" "p"
    [("doc_save", "doc-7")] (by decide) (by decide)

end Celi
